import Mathlib

/-!
Shallow embedding of `ribs/emitters/_improvement_emitter.py` (class
`ImprovementEmitter`).  The `Archive` and the CMA-ES `Optimizer` are external
collaborators of the emitter: they are modelled as opaque records of
state-passing operations, exactly the interface the emitter consumes
(`add`/`get_random_elite` for the archive, `tell`/`check_stop`/`reset` and a
fixed `batch_size` for the optimizer).  Improvement values (Python floats) are
modelled as integers: the emitter only compares and forwards them, so the
ordering structure is all that matters.  The numpy random generator used at
construction is likewise opaque (a state type plus a draw function).
-/

namespace RibsSpec

/-- Modelled from the spec: `ribs.archives.AddStatus` is imported by the
emitter but its module is not under `src/`.  Per the spec, under the reverse
tuple sort NEW sorts before IMPROVE_EXISTING sorts before NOT_ADDED, so the
statuses carry the integer ranks NOT_ADDED = 0, IMPROVE_EXISTING = 1,
NEW = 2 used by Python tuple comparison. -/
inductive AddStatus : Type
  | NOT_ADDED : AddStatus
  | IMPROVE_EXISTING : AddStatus
  | NEW : AddStatus
deriving DecidableEq

/-- Integer value of a status, as used by Python tuple comparison. -/
def AddStatus.val : AddStatus → Nat
  | .NOT_ADDED => 0
  | .IMPROVE_EXISTING => 1
  | .NEW => 2

/-- One entry of `ranking_data` in `tell`: `(status, value, i)` with `i` the
original batch index (source line 157). -/
abbrev RankingRecord := AddStatus × Int × Nat

/-- Python `<=` on the value triples `(status.value, value, i)`:
lexicographic comparison, as Python compares tuples. -/
def pyTupleLE (a b : Nat × Int × Nat) : Bool :=
  decide (a.1 < b.1) ||
    (a.1 == b.1 && (decide (a.2.1 < b.2.1) ||
      (a.2.1 == b.2.1 && decide (a.2.2 ≤ b.2.2))))

/-- The comparison key of a ranking record: the status is compared through its
integer value. -/
def recKey (r : RankingRecord) : Nat × Int × Nat :=
  (r.1.val, r.2.1, r.2.2)

/-- The ordering realising Python's `ranking_data.sort(reverse=True)` (source
line 162): `a` may precede `b` when `b`'s key is `≤` `a`'s key. -/
def recGE (a b : RankingRecord) : Bool :=
  pyTupleLE (recKey b) (recKey a)

/-- `recGE` as a decidable relation. -/
def recGEP (a b : RankingRecord) : Prop :=
  recGE a b = true

instance : DecidableRel recGEP := fun a b =>
  inferInstanceAs (Decidable (recGE a b = true))

/-- Python's `list.sort(reverse=True)`: a stable sort placing larger keys
first.  CPython's timsort is modelled by a stable insertion sort, which is
extensionally identical on every input (stability plus the sortedness of the
output determine the result of any stable sort). -/
def pySortRev (l : List RankingRecord) : List RankingRecord :=
  List.insertionSort recGEP l

instance : IsTotal RankingRecord recGEP :=
  ⟨fun a b => by
    simp only [recGEP, recGE, pyTupleLE, recKey, Bool.or_eq_true, Bool.and_eq_true,
      decide_eq_true_eq, beq_iff_eq]
    omega⟩

instance : IsTrans RankingRecord recGEP :=
  ⟨fun a b c hab hbc => by
    simp only [recGEP, recGE, pyTupleLE, recKey, Bool.or_eq_true, Bool.and_eq_true,
      decide_eq_true_eq, beq_iff_eq] at hab hbc ⊢
    omega⟩

/-- The opaque archive interface the emitter consumes: `add` returns
`(status, value, entry)` (the entry component `ε` is discarded by the
emitter) and a new archive state; `get_random_elite` returns an elite tuple
whose first component is the solution, and a new archive state (it consumes
archive-side randomness). -/
structure Archive (σ Sol Obj Beh Meta ρ ε : Type) where
  add : σ → Sol → Obj → Beh → Option Meta → (AddStatus × Int × ε) × σ
  get_random_elite : σ → (Sol × ρ) × σ

/-- The opaque CMA-ES optimizer interface the emitter consumes.
`batch_size` is the value the optimizer reports after construction. -/
structure Optimizer (τ Sol : Type) where
  batch_size : Nat
  tell : τ → List Sol → Nat → τ
  check_stop : τ → List Int → Bool
  reset : τ → Sol → τ

/-- `selection_rule`, validated at construction into its closed set. -/
inductive SelectionRule : Type
  | mu : SelectionRule
  | filter : SelectionRule
deriving DecidableEq

/-- `restart_rule`, validated at construction into its closed set. -/
inductive RestartRule : Type
  | basic : RestartRule
  | no_improvement : RestartRule
deriving DecidableEq

/-- The mutable state of an `ImprovementEmitter` together with its
configuration fields (`_x0`, `_sigma0`, `_selection_rule`, `_restart_rule`,
`_batch_size`, `_num_parents`, `_restarts`, `_rng`) and the states of the
archive and optimizer it references.  `_num_parents` is `some (batch_size / 2)`
under "mu" and `none` under "filter", exactly as in source lines 88-89. -/
structure EmitterState (σ τ γ Sol Sig : Type) where
  x0 : Sol
  sigma0 : Sig
  selection_rule : SelectionRule
  restart_rule : RestartRule
  batch_size : Nat
  num_parents : Option Nat
  restarts : Nat
  rng : γ
  archState : σ
  optState : τ

/-- The Python `for ... in enumerate(zip(solutions, objective_values,
behavior_values, metadata))` iteration domain (source lines 153-155):
`zip` truncates to the shortest input; an omitted `metadata` is
`itertools.repeat(None)`, i.e. an unbounded supply of `None`, so it never
shortens the zip. -/
def zip4 {Sol Obj Beh Meta : Type} (solutions : List Sol) (objective_values : List Obj)
    (behavior_values : List Beh) :
    Option (List (Option Meta)) → List (Sol × Obj × Beh × Option Meta)
  | none =>
    (solutions.zip (objective_values.zip behavior_values)).map
      (fun p => (p.1, p.2.1, p.2.2, none))
  | some ms =>
    (solutions.zip (objective_values.zip (behavior_values.zip ms))).map
      (fun p => (p.1, p.2.1, p.2.2.1, p.2.2.2))

/-- The insertion loop of `tell` (source lines 151-159): inserts each zipped
tuple into the archive, records `(status, value, i)`, and counts `new_sols`,
the records whose status is NEW or IMPROVE_EXISTING.  Returns
`(ranking_data, new_sols, archive state)`. -/
def addLoop {σ Sol Obj Beh Meta ρ ε : Type} (A : Archive σ Sol Obj Beh Meta ρ ε) :
    List (Sol × Obj × Beh × Option Meta) → σ → Nat → List RankingRecord × Nat × σ
  | [], st, _ => ([], 0, st)
  | t :: rest, st, i =>
    let r := A.add st t.1 t.2.1 t.2.2.1 t.2.2.2
    let rec2 := addLoop A rest r.2 (i + 1)
    ((r.1.1, r.1.2.1, i) :: rec2.1,
      (if r.1.1 = AddStatus.NEW ∨ r.1.1 = AddStatus.IMPROVE_EXISTING then rec2.2.1 + 1
        else rec2.2.1),
      rec2.2.2)

/-- `_check_restart` (source lines 119-126): under "no_improvement" it fires
exactly when its argument is zero; under "basic" it never fires. -/
def check_restart : RestartRule → Nat → Bool
  | .no_improvement, n => n == 0
  | .basic, _ => false

/-- Everything `tell` computes and every argument it passes to its
collaborators, recorded so that theorems can speak about the calls:
`records` is `ranking_data` in construction order, `ranked` is it after
`sort(reverse=True)`, `indices` the extracted permutation, `optTellSolutions`
the reordered solutions handed to `Optimizer.tell`, `checkStopValues` the
list handed to `Optimizer.check_stop`, `resetArg` the solution handed to
`Optimizer.reset` when a restart fires. -/
structure TellTrace (σ τ Sol : Type) where
  records : List RankingRecord
  ranked : List RankingRecord
  indices : List Nat
  newSols : Nat
  num_parents : Nat
  optTellSolutions : List Sol
  archAfterAdd : σ
  optAfterTell : τ
  checkStopValues : List Int
  stop : Bool
  restartFired : Bool
  resetArg : Option Sol

/-- `ImprovementEmitter.tell` (source lines 128-175).  Python returns `None`;
the embedding returns the updated emitter state explicitly, paired with the
trace of the call.  Note that `check_stop` receives the values of the already
sorted `ranking_data` (the in-place sort at line 162 happens before the
comprehension at line 171) and is invoked on the optimizer state produced by
`Optimizer.tell` (`self.opt` is the same object). -/
def tell {σ τ γ Sol Obj Beh Meta Sig ρ ε : Type}
    (A : Archive σ Sol Obj Beh Meta ρ ε) (O : Optimizer τ Sol)
    (e : EmitterState σ τ γ Sol Sig) (solutions : List Sol)
    (objective_values : List Obj) (behavior_values : List Beh)
    (metadata : Option (List (Option Meta))) :
    EmitterState σ τ γ Sol Sig × TellTrace σ τ Sol :=
  let res := addLoop A (zip4 solutions objective_values behavior_values metadata)
    e.archState 0
  let ranking_data := pySortRev res.1
  let indices := ranking_data.map (fun d => d.2.2)
  let new_sols := res.2.1
  let num_parents :=
    match e.selection_rule with
    | SelectionRule.filter => new_sols
    | SelectionRule.mu => e.num_parents.getD 0
  let reordered := indices.filterMap (fun i => solutions.get? i)
  let opt1 := O.tell e.optState reordered num_parents
  let values := ranking_data.map (fun d => d.2.1)
  let stop := O.check_stop opt1 values
  let fire := stop || check_restart e.restart_rule new_sols
  let tr : TellTrace σ τ Sol :=
    { records := res.1, ranked := ranking_data, indices := indices,
      newSols := new_sols, num_parents := num_parents,
      optTellSolutions := reordered, archAfterAdd := res.2.2,
      optAfterTell := opt1, checkStopValues := values, stop := stop,
      restartFired := fire, resetArg := none }
  if fire then
    let elite := A.get_random_elite res.2.2
    ({ e with
        archState := elite.2
        optState := O.reset opt1 elite.1.1
        restarts := e.restarts + 1 },
      { tr with resetArg := some elite.1.1 })
  else
    ({ e with archState := res.2.2, optState := opt1 }, tr)

/-- `ImprovementEmitter.__init__` (source lines 54-91), from the creation of
`self._rng` through the validation of `selection_rule` and `restart_rule`
(raising `ValueError` with the offending field and value), the derivation of
`opt_seed` from the emitter's own generator, the construction of the opaque
optimizer (which receives `weight_rule` and validates it itself), the initial
`opt.reset(x0)`, and the precomputation of `_num_parents` and `_batch_size`.
The numpy generator is opaque: `default_rng` seeds it, `integers` draws
`self._rng.integers(10_000)`. -/
def init {σ τ γ Sol Sig : Type} (default_rng : Option Nat → γ)
    (integers : γ → Nat → Nat × γ)
    (mkOpt : String → Option Nat → Optimizer τ Sol × τ)
    (x0 : Sol) (sigma0 : Sig) (selection_rule restart_rule weight_rule : String)
    (seed : Option Nat) (archState : σ) :
    Except String (EmitterState σ τ γ Sol Sig × Optimizer τ Sol) :=
  let rng := default_rng seed
  if ¬ (selection_rule = "mu" ∨ selection_rule = "filter") then
    Except.error ("Invalid selection_rule " ++ selection_rule)
  else if ¬ (restart_rule = "basic" ∨ restart_rule = "no_improvement") then
    Except.error ("Invalid restart_rule " ++ restart_rule)
  else
    let drawn : Option Nat × γ :=
      match seed with
      | none => (none, rng)
      | some _ => (some (integers rng 10000).1, (integers rng 10000).2)
    let op := mkOpt weight_rule drawn.1
    let optState := op.1.reset op.2 x0
    Except.ok
      ({ x0 := x0
         sigma0 := sigma0
         selection_rule :=
           if selection_rule = "mu" then SelectionRule.mu else SelectionRule.filter
         restart_rule :=
           if restart_rule = "basic" then RestartRule.basic
           else RestartRule.no_improvement
         batch_size := op.1.batch_size
         num_parents :=
           if selection_rule = "mu" then some (op.1.batch_size / 2) else none
         restarts := 0
         rng := drawn.2
         archState := archState
         optState := optState }, op.1)

/-- The claim's status ranks, written from the claim's own words: NEW sorts
before IMPROVE_EXISTING sorts before NOT_ADDED. -/
def specStatusRank : AddStatus → Nat
  | .NEW => 2
  | .IMPROVE_EXISTING => 1
  | .NOT_ADDED => 0

/-- The claim's total order on ranking records, written from its words:
a record strictly precedes another when its status ranks strictly higher, or
the statuses are equal and its improvement value is strictly larger, or both
are equal and its original batch index is strictly larger. -/
def specBefore (r s : RankingRecord) : Prop :=
  specStatusRank s.1 < specStatusRank r.1 ∨
    (r.1 = s.1 ∧ s.2.1 < r.2.1) ∨
    (r.1 = s.1 ∧ r.2.1 = s.2.1 ∧ s.2.2 < r.2.2)

/-- The predicate counted by `new_sols`: status NEW or IMPROVE_EXISTING. -/
def isImproving (r : RankingRecord) : Bool :=
  r.1 = AddStatus.NEW ∨ r.1 = AddStatus.IMPROVE_EXISTING

/-! Concrete collaborator instances used to exercise the theorems on closed
inputs.  `wArchMix` rejects the first inserted solution (status NOT_ADDED,
value 5) and accepts every later one as NEW with value 3, so the ranked order
differs from the batch order; `wArchNone` rejects everything; `wArchNew`
accepts everything. -/

def wArchMix : Archive Nat Nat Int Int Nat Unit Unit where
  add st _s _o _b _m :=
    ((if st = 0 then AddStatus.NOT_ADDED else AddStatus.NEW,
      if st = 0 then 5 else 3, ()), st + 1)
  get_random_elite st := ((st + 7, ()), st + 1)

def wArchNone : Archive Nat Nat Int Int Nat Unit Unit where
  add st _s _o _b _m := ((AddStatus.NOT_ADDED, -1, ()), st + 1)
  get_random_elite st := ((st + 7, ()), st + 1)

def wArchNew : Archive Nat Nat Int Int Nat Unit Unit where
  add st _s _o _b _m := ((AddStatus.NEW, 2, ()), st + 1)
  get_random_elite st := ((st + 7, ()), st + 1)

/-- A concrete optimizer whose state counts its `tell` and `reset` calls and
which never signals `check_stop`. -/
def wOpt : Optimizer Nat Nat where
  batch_size := 4
  tell t _ _ := t + 1
  check_stop _ _ := false
  reset t _ := t + 100

/-- A concrete optimizer that always signals `check_stop`. -/
def wOptStop : Optimizer Nat Nat where
  batch_size := 4
  tell t _ _ := t + 1
  check_stop _ _ := true
  reset t _ := t + 100

def wStateFilter : EmitterState Nat Nat Nat Nat Int where
  x0 := 0
  sigma0 := 1
  selection_rule := SelectionRule.filter
  restart_rule := RestartRule.no_improvement
  batch_size := 2
  num_parents := none
  restarts := 0
  rng := 42
  archState := 0
  optState := 0

def wStateMu : EmitterState Nat Nat Nat Nat Int where
  x0 := 0
  sigma0 := 1
  selection_rule := SelectionRule.mu
  restart_rule := RestartRule.basic
  batch_size := 4
  num_parents := some 2
  restarts := 0
  rng := 42
  archState := 0
  optState := 0

def wStateBasic : EmitterState Nat Nat Nat Nat Int where
  x0 := 0
  sigma0 := 1
  selection_rule := SelectionRule.filter
  restart_rule := RestartRule.basic
  batch_size := 2
  num_parents := none
  restarts := 0
  rng := 42
  archState := 0
  optState := 0

/-- Concrete stand-ins for the opaque numpy generator and the opaque
optimizer constructor, used on closed inputs. -/
def wDefaultRng : Option Nat → Nat := fun s => s.getD 0

def wIntegers : Nat → Nat → Nat × Nat := fun g n => (g % n, g + 1)

def wMkOpt : String → Option Nat → Optimizer Nat Nat × Nat := fun _ _ => (wOpt, 0)

/-- The value `init` produces on the concrete "mu"/"basic" witness inputs. -/
def wInitMuPair : EmitterState Nat Nat Nat Nat Int × Optimizer Nat Nat :=
  ({ x0 := 0
     sigma0 := 1
     selection_rule := SelectionRule.mu
     restart_rule := RestartRule.basic
     batch_size := 4
     num_parents := some 2
     restarts := 0
     rng := 6
     archState := 0
     optState := 100 }, wOpt)

section Lemmas

variable {σ τ γ Sol Obj Beh Meta Sig ρ ε : Type}
variable (A : Archive σ Sol Obj Beh Meta ρ ε) (O : Optimizer τ Sol)
variable (e : EmitterState σ τ γ Sol Sig)

lemma tell_records (solutions : List Sol) (objs : List Obj) (behs : List Beh)
    (md : Option (List (Option Meta))) :
    (tell A O e solutions objs behs md).2.records =
      (addLoop A (zip4 solutions objs behs md) e.archState 0).1 := by
  simp only [tell]
  split <;> rfl

lemma tell_ranked (solutions : List Sol) (objs : List Obj) (behs : List Beh)
    (md : Option (List (Option Meta))) :
    (tell A O e solutions objs behs md).2.ranked =
      pySortRev (tell A O e solutions objs behs md).2.records := by
  simp only [tell]
  split <;> rfl

lemma tell_indices (solutions : List Sol) (objs : List Obj) (behs : List Beh)
    (md : Option (List (Option Meta))) :
    (tell A O e solutions objs behs md).2.indices =
      (tell A O e solutions objs behs md).2.ranked.map (fun d => d.2.2) := by
  simp only [tell]
  split <;> rfl

lemma tell_newSols (solutions : List Sol) (objs : List Obj) (behs : List Beh)
    (md : Option (List (Option Meta))) :
    (tell A O e solutions objs behs md).2.newSols =
      (addLoop A (zip4 solutions objs behs md) e.archState 0).2.1 := by
  simp only [tell]
  split <;> rfl

lemma tell_num_parents (solutions : List Sol) (objs : List Obj) (behs : List Beh)
    (md : Option (List (Option Meta))) :
    (tell A O e solutions objs behs md).2.num_parents =
      (match e.selection_rule with
        | SelectionRule.filter => (tell A O e solutions objs behs md).2.newSols
        | SelectionRule.mu => e.num_parents.getD 0) := by
  simp only [tell]
  split <;> rfl

lemma tell_optTellSolutions (solutions : List Sol) (objs : List Obj) (behs : List Beh)
    (md : Option (List (Option Meta))) :
    (tell A O e solutions objs behs md).2.optTellSolutions =
      (tell A O e solutions objs behs md).2.indices.filterMap
        (fun i => solutions.get? i) := by
  simp only [tell]
  split <;> rfl

lemma tell_checkStopValues (solutions : List Sol) (objs : List Obj) (behs : List Beh)
    (md : Option (List (Option Meta))) :
    (tell A O e solutions objs behs md).2.checkStopValues =
      (tell A O e solutions objs behs md).2.ranked.map (fun d => d.2.1) := by
  simp only [tell]
  split <;> rfl

lemma tell_archAfterAdd (solutions : List Sol) (objs : List Obj) (behs : List Beh)
    (md : Option (List (Option Meta))) :
    (tell A O e solutions objs behs md).2.archAfterAdd =
      (addLoop A (zip4 solutions objs behs md) e.archState 0).2.2 := by
  simp only [tell]
  split <;> rfl

lemma tell_optAfterTell (solutions : List Sol) (objs : List Obj) (behs : List Beh)
    (md : Option (List (Option Meta))) :
    (tell A O e solutions objs behs md).2.optAfterTell =
      O.tell e.optState (tell A O e solutions objs behs md).2.optTellSolutions
        (tell A O e solutions objs behs md).2.num_parents := by
  simp only [tell]
  split <;> rfl

lemma tell_stop (solutions : List Sol) (objs : List Obj) (behs : List Beh)
    (md : Option (List (Option Meta))) :
    (tell A O e solutions objs behs md).2.stop =
      O.check_stop (tell A O e solutions objs behs md).2.optAfterTell
        (tell A O e solutions objs behs md).2.checkStopValues := by
  simp only [tell]
  split <;> rfl

lemma tell_restartFired (solutions : List Sol) (objs : List Obj) (behs : List Beh)
    (md : Option (List (Option Meta))) :
    (tell A O e solutions objs behs md).2.restartFired =
      ((tell A O e solutions objs behs md).2.stop ||
        check_restart e.restart_rule (tell A O e solutions objs behs md).2.newSols) := by
  simp only [tell]
  split <;> rfl

lemma tell_restarts (solutions : List Sol) (objs : List Obj) (behs : List Beh)
    (md : Option (List (Option Meta))) :
    (tell A O e solutions objs behs md).1.restarts =
      (if (tell A O e solutions objs behs md).2.restartFired then e.restarts + 1
        else e.restarts) := by
  simp only [tell]
  split
  · next h => simp [h]
  · next h => simp [h]

lemma tell_resetArg (solutions : List Sol) (objs : List Obj) (behs : List Beh)
    (md : Option (List (Option Meta))) :
    (tell A O e solutions objs behs md).2.resetArg =
      (if (tell A O e solutions objs behs md).2.restartFired then
        some ((A.get_random_elite (tell A O e solutions objs behs md).2.archAfterAdd).1.1)
        else none) := by
  simp only [tell]
  split
  · next h => simp [h, tell_archAfterAdd]
  · next h => simp [h]

lemma tell_optState (solutions : List Sol) (objs : List Obj) (behs : List Beh)
    (md : Option (List (Option Meta))) :
    (tell A O e solutions objs behs md).1.optState =
      (if (tell A O e solutions objs behs md).2.restartFired then
        O.reset (tell A O e solutions objs behs md).2.optAfterTell
          ((A.get_random_elite (tell A O e solutions objs behs md).2.archAfterAdd).1.1)
        else (tell A O e solutions objs behs md).2.optAfterTell) := by
  simp only [tell]
  split
  · next h => simp [h]
  · next h => simp [h]

lemma pyTupleLE_iff (a b : Nat × Int × Nat) :
    pyTupleLE a b = true ↔
      a.1 < b.1 ∨ (a.1 = b.1 ∧ (a.2.1 < b.2.1 ∨ (a.2.1 = b.2.1 ∧ a.2.2 ≤ b.2.2))) := by
  simp [pyTupleLE]

lemma recGE_total (a b : RankingRecord) : (recGE a b || recGE b a) = true := by
  simp only [recGE, Bool.or_eq_true, pyTupleLE_iff, recKey]
  omega

lemma recGE_trans (a b c : RankingRecord) (hab : recGE a b = true)
    (hbc : recGE b c = true) : recGE a c = true := by
  simp only [recGE, pyTupleLE_iff, recKey] at hab hbc ⊢
  omega

lemma AddStatus.val_inj (a b : AddStatus) (h : a.val = b.val) : a = b := by
  cases a <;> cases b <;> simp_all [AddStatus.val]

lemma specStatusRank_eq_val (a : AddStatus) : specStatusRank a = a.val := by
  cases a <;> rfl

/-- A record that the reverse tuple sort may place first, and whose original
index differs, strictly precedes the other in the order the claim describes. -/
lemma recGE_ne_imp_specBefore (a b : RankingRecord) (h : recGE a b = true)
    (hne : a.2.2 ≠ b.2.2) : specBefore a b := by
  simp only [recGE, pyTupleLE_iff, recKey] at h
  simp only [specBefore, specStatusRank_eq_val]
  rcases h with h1 | ⟨h1, h2 | ⟨h2, h3⟩⟩
  · exact Or.inl h1
  · exact Or.inr (Or.inl ⟨(AddStatus.val_inj _ _ h1.symm), h2⟩)
  · exact Or.inr (Or.inr ⟨AddStatus.val_inj _ _ h1.symm, h2.symm,
      lt_of_le_of_ne h3 (fun hh => hne hh.symm)⟩)

lemma addLoop_records_length (l : List (Sol × Obj × Beh × Option Meta)) (st : σ)
    (i : Nat) : (addLoop A l st i).1.length = l.length := by
  induction l generalizing st i with
  | nil => rfl
  | cons t rest ih => simp [addLoop, ih]

lemma addLoop_idx (l : List (Sol × Obj × Beh × Option Meta)) (st : σ) (i : Nat) :
    (addLoop A l st i).1.map (fun r => r.2.2) = List.range' i l.length := by
  induction l generalizing st i with
  | nil => rfl
  | cons t rest ih => simp [addLoop, List.range', ih]

lemma addLoop_count (l : List (Sol × Obj × Beh × Option Meta)) (st : σ) (i : Nat) :
    (addLoop A l st i).2.1 = (addLoop A l st i).1.countP isImproving := by
  induction l generalizing st i with
  | nil => rfl
  | cons t rest ih =>
    simp only [addLoop, List.countP_cons, ih, isImproving]
    split
    · next h => simp [h]
    · next h => simp [h]

lemma zip4_length_none (solutions : List Sol) (objs : List Obj) (behs : List Beh) :
    (zip4 solutions objs behs (none : Option (List (Option Meta)))).length =
      min solutions.length (min objs.length behs.length) := by
  simp [zip4]

lemma zip4_length_some (solutions : List Sol) (objs : List Obj) (behs : List Beh)
    (ms : List (Option Meta)) :
    (zip4 solutions objs behs (some ms)).length =
      min solutions.length (min objs.length (min behs.length ms.length)) := by
  simp [zip4]

lemma tell_ranked_perm (solutions : List Sol) (objs : List Obj) (behs : List Beh)
    (md : Option (List (Option Meta))) :
    ((tell A O e solutions objs behs md).2.ranked).Perm
      (tell A O e solutions objs behs md).2.records := by
  rw [tell_ranked]
  exact List.perm_insertionSort recGEP _

lemma tell_ranked_pairwise (solutions : List Sol) (objs : List Obj)
    (behs : List Beh) (md : Option (List (Option Meta))) :
    ((tell A O e solutions objs behs md).2.ranked).Pairwise specBefore := by
  have hsorted : ((tell A O e solutions objs behs md).2.ranked).Pairwise
      (fun a b => recGE a b = true) := by
    rw [tell_ranked]
    exact List.sorted_insertionSort recGEP _
  have hperm := tell_ranked_perm A O e solutions objs behs md
  have hidx : ((tell A O e solutions objs behs md).2.records).map (fun r => r.2.2) =
      List.range' 0 (zip4 solutions objs behs md).length := by
    rw [tell_records]
    exact addLoop_idx A _ _ _
  have hnodup : (((tell A O e solutions objs behs md).2.ranked).map
      (fun r => r.2.2)).Nodup := by
    refine (hperm.map (fun r => r.2.2)).symm.nodup ?_
    rw [hidx]
    exact List.nodup_range' _ _
  have hpne : ((tell A O e solutions objs behs md).2.ranked).Pairwise
      (fun a b => a.2.2 ≠ b.2.2) := List.pairwise_map.mp hnodup
  exact (hsorted.and hpne).imp (fun h => recGE_ne_imp_specBefore _ _ h.1 h.2)

lemma tell_config_frame (solutions : List Sol) (objs : List Obj) (behs : List Beh)
    (md : Option (List (Option Meta))) :
    (tell A O e solutions objs behs md).1.x0 = e.x0 ∧
    (tell A O e solutions objs behs md).1.sigma0 = e.sigma0 ∧
    (tell A O e solutions objs behs md).1.batch_size = e.batch_size ∧
    (tell A O e solutions objs behs md).1.selection_rule = e.selection_rule ∧
    (tell A O e solutions objs behs md).1.restart_rule = e.restart_rule ∧
    (tell A O e solutions objs behs md).1.num_parents = e.num_parents ∧
    (tell A O e solutions objs behs md).1.rng = e.rng := by
  simp only [tell]
  split <;> exact ⟨rfl, rfl, rfl, rfl, rfl, rfl, rfl⟩

lemma mem_tell_indices_lt (solutions : List Sol) (objs : List Obj) (behs : List Beh)
    (md : Option (List (Option Meta))) :
    ∀ i ∈ (tell A O e solutions objs behs md).2.indices,
      i < (zip4 solutions objs behs md).length := by
  intro i hi
  rw [tell_indices] at hi
  have hperm := (tell_ranked_perm A O e solutions objs behs md).map (fun r => r.2.2)
  have hmem : i ∈ ((tell A O e solutions objs behs md).2.records).map
      (fun r => r.2.2) := hperm.mem_iff.mp hi
  rw [tell_records, addLoop_idx] at hmem
  rcases List.mem_range'.mp hmem with ⟨j, hj, rfl⟩
  omega

/-- Two `tell` calls whose zipped iteration domains coincide and whose
solution lists agree below that domain's length produce identical results. -/
lemma tell_eq_of_zip4_eq {s1 s2 : List Sol} {o1 o2 : List Obj} {b1 b2 : List Beh}
    {m1 m2 : Option (List (Option Meta))}
    (hz : zip4 s1 o1 b1 m1 = zip4 s2 o2 b2 m2)
    (hg : ∀ i, i < (zip4 s2 o2 b2 m2).length → s1.get? i = s2.get? i) :
    tell A O e s1 o1 b1 m1 = tell A O e s2 o2 b2 m2 := by
  have hre : ((tell A O e s2 o2 b2 m2).2.indices).filterMap
        (fun i => s1.get? i) =
      ((tell A O e s2 o2 b2 m2).2.indices).filterMap (fun i => s2.get? i) :=
    List.filterMap_congr
      (fun i hi => hg i (mem_tell_indices_lt A O e s2 o2 b2 m2 i hi))
  rw [tell_indices, tell_ranked, tell_records] at hre
  simp only [tell, hz]
  rw [hre]

lemma zip_replicate_self {α β : Type} (l : List α) (c : β) :
    l.zip (List.replicate l.length c) = l.map (fun x => (x, c)) := by
  induction l with
  | nil => rfl
  | cons x xs ih => simp [List.replicate, ih]

lemma zip4_replicate_none (solutions : List Sol) (objs : List Obj)
    (behs : List Beh) :
    zip4 solutions objs behs (some (List.replicate behs.length (none : Option Meta))) =
      zip4 solutions objs behs none := by
  simp only [zip4, zip_replicate_self, List.zip_map_right, List.map_map]
  rfl

lemma zip4_take_some (solutions : List Sol) (objs : List Obj) (behs : List Beh)
    (ms : List (Option Meta)) :
    zip4 (solutions.take (min solutions.length (min objs.length (min behs.length ms.length))))
        (objs.take (min solutions.length (min objs.length (min behs.length ms.length))))
        (behs.take (min solutions.length (min objs.length (min behs.length ms.length))))
        (some (ms.take (min solutions.length (min objs.length (min behs.length ms.length))))) =
      zip4 solutions objs behs (some ms) := by
  simp only [zip4, List.zip, ← List.take_zipWith]
  rw [List.take_of_length_le]
  simp only [List.length_zipWith]
  omega

lemma zip4_take_none (solutions : List Sol) (objs : List Obj) (behs : List Beh) :
    zip4 (solutions.take (min solutions.length (min objs.length behs.length)))
        (objs.take (min solutions.length (min objs.length behs.length)))
        (behs.take (min solutions.length (min objs.length behs.length)))
        (none : Option (List (Option Meta))) =
      zip4 solutions objs behs none := by
  simp only [zip4, List.zip, ← List.take_zipWith]
  rw [List.take_of_length_le]
  simp only [List.length_zipWith]
  omega

lemma tell_records_length_of_batch (solutions : List Sol) (objs : List Obj)
    (behs : List Beh) (md : Option (List (Option Meta)))
    (hs : solutions.length = e.batch_size) (ho : objs.length = e.batch_size)
    (hb : behs.length = e.batch_size)
    (hm : ∀ ms, md = some ms → ms.length = e.batch_size) :
    (tell A O e solutions objs behs md).2.records.length = e.batch_size := by
  rw [tell_records, addLoop_records_length]
  cases md with
  | none => rw [zip4_length_none, hs, ho, hb]; simp
  | some ms => rw [zip4_length_some, hs, ho, hb, hm ms rfl]; simp

end Lemmas

/-- C1: for a tell() call whose inputs all have length `batch_size`, exactly
`batch_size` ranking records are built, and the permutation applied to the
solutions before forwarding them to `Optimizer.tell` is the total order in
which NEW records sort before IMPROVE_EXISTING records, IMPROVE_EXISTING
before NOT_ADDED, equal statuses sort by improvement value non-increasing,
and records equal in both sort by original batch index descending. -/
theorem tell_ranking_order_spec {σ τ γ Sol Obj Beh Meta Sig ρ ε : Type}
    (A : Archive σ Sol Obj Beh Meta ρ ε) (O : Optimizer τ Sol)
    (e : EmitterState σ τ γ Sol Sig) (solutions : List Sol) (objs : List Obj)
    (behs : List Beh) (md : Option (List (Option Meta)))
    (hs : solutions.length = e.batch_size) (ho : objs.length = e.batch_size)
    (hb : behs.length = e.batch_size)
    (hm : ∀ ms, md = some ms → ms.length = e.batch_size) :
    (tell A O e solutions objs behs md).2.records.length = e.batch_size ∧
    ((tell A O e solutions objs behs md).2.ranked).Perm
      (tell A O e solutions objs behs md).2.records ∧
    ((tell A O e solutions objs behs md).2.ranked).Pairwise specBefore ∧
    (tell A O e solutions objs behs md).2.indices =
      (tell A O e solutions objs behs md).2.ranked.map (fun d => d.2.2) ∧
    (tell A O e solutions objs behs md).2.optTellSolutions =
      (tell A O e solutions objs behs md).2.ranked.filterMap
        (fun d => solutions.get? d.2.2) := by
  refine ⟨tell_records_length_of_batch A O e solutions objs behs md hs ho hb hm,
    tell_ranked_perm A O e solutions objs behs md,
    tell_ranked_pairwise A O e solutions objs behs md,
    tell_indices A O e solutions objs behs md, ?_⟩
  rw [tell_optTellSolutions, tell_indices, List.filterMap_map]
  rfl

/-- Closed witness for `tell_ranking_order_spec`. -/
theorem tell_ranking_order_spec_witness :
    (tell wArchMix wOpt wStateFilter [10, 20] [0, 0] [0, 0] none).2.records.length =
      wStateFilter.batch_size ∧
    ((tell wArchMix wOpt wStateFilter [10, 20] [0, 0] [0, 0] none).2.ranked).Perm
      (tell wArchMix wOpt wStateFilter [10, 20] [0, 0] [0, 0] none).2.records ∧
    ((tell wArchMix wOpt wStateFilter [10, 20] [0, 0] [0, 0] none).2.ranked).Pairwise
      specBefore ∧
    (tell wArchMix wOpt wStateFilter [10, 20] [0, 0] [0, 0] none).2.indices =
      (tell wArchMix wOpt wStateFilter [10, 20] [0, 0] [0, 0] none).2.ranked.map
        (fun d => d.2.2) ∧
    (tell wArchMix wOpt wStateFilter [10, 20] [0, 0] [0, 0] none).2.optTellSolutions =
      (tell wArchMix wOpt wStateFilter [10, 20] [0, 0] [0, 0] none).2.ranked.filterMap
        (fun d => [10, 20].get? d.2.2) :=
  tell_ranking_order_spec wArchMix wOpt wStateFilter [10, 20] [0, 0] [0, 0] none
    rfl rfl rfl (fun _ h => nomatch h)

/-- C2: under "filter" the `num_parents` passed to `Optimizer.tell` is the
count of that batch's records whose status is NEW or IMPROVE_EXISTING (it may
be 0 and vary call to call); under "mu" construction precomputes
`some (batch_size / 2)` once (with `batch_size` the value the optimizer
reports), and every tell() call passes exactly that stored constant and
leaves it and `batch_size` unchanged, independent of the archive outcomes. -/
theorem num_parents_selection_rule_spec {σ τ γ Sol Obj Beh Meta Sig ρ ε : Type} :
    (∀ (A : Archive σ Sol Obj Beh Meta ρ ε) (O : Optimizer τ Sol)
        (e : EmitterState σ τ γ Sol Sig) (solutions : List Sol) (objs : List Obj)
        (behs : List Beh) (md : Option (List (Option Meta))),
      e.selection_rule = SelectionRule.filter →
        (tell A O e solutions objs behs md).2.num_parents =
          ((tell A O e solutions objs behs md).2.records).countP isImproving) ∧
    (∀ (default_rng : Option Nat → γ) (integers : γ → Nat → Nat × γ)
        (mkOpt : String → Option Nat → Optimizer τ Sol × τ) (x0 : Sol) (s0 : Sig)
        (rr wr : String) (seed : Option Nat) (a : σ)
        (p : EmitterState σ τ γ Sol Sig × Optimizer τ Sol),
      init default_rng integers mkOpt x0 s0 "mu" rr wr seed a = Except.ok p →
        p.1.num_parents = some (p.1.batch_size / 2) ∧
        p.1.batch_size = p.2.batch_size) ∧
    (∀ (A : Archive σ Sol Obj Beh Meta ρ ε) (O : Optimizer τ Sol)
        (e : EmitterState σ τ γ Sol Sig) (solutions : List Sol) (objs : List Obj)
        (behs : List Beh) (md : Option (List (Option Meta))) (k : Nat),
      e.selection_rule = SelectionRule.mu → e.num_parents = some k →
        (tell A O e solutions objs behs md).2.num_parents = k ∧
        (tell A O e solutions objs behs md).1.num_parents = some k ∧
        (tell A O e solutions objs behs md).1.batch_size = e.batch_size) := by
  refine ⟨?_, ?_, ?_⟩
  · intro A O e solutions objs behs md hf
    have h1 := tell_num_parents A O e solutions objs behs md
    rw [hf] at h1
    simp only [] at h1
    rw [h1, tell_newSols, addLoop_count, ← tell_records]
  · intro default_rng integers mkOpt x0 s0 rr wr seed a p hp
    simp only [init] at hp
    split at hp
    · exact absurd hp (by simp)
    · split at hp
      · exact absurd hp (by simp)
      · rw [Except.ok.injEq] at hp
        subst hp
        simp
  · intro A O e solutions objs behs md k hmu hk
    have h1 := tell_num_parents A O e solutions objs behs md
    rw [hmu] at h1
    simp only [] at h1
    rw [hk] at h1
    have hf := tell_config_frame A O e solutions objs behs md
    exact ⟨by rw [h1]; rfl, by rw [hf.2.2.2.2.2.1, hk], hf.2.2.1⟩

/-- Closed witness for `num_parents_selection_rule_spec`. -/
theorem num_parents_selection_rule_spec_witness :
    (tell wArchMix wOpt wStateFilter [10, 20] [0, 0] [0, 0] none).2.num_parents =
      ((tell wArchMix wOpt wStateFilter [10, 20] [0, 0] [0, 0] none).2.records).countP
        isImproving ∧
    wInitMuPair.1.num_parents = some (wInitMuPair.1.batch_size / 2) ∧
    (tell wArchNone wOpt wStateMu [1, 2] [0, 0] [0, 0] none).2.num_parents = 2 :=
  ⟨(@num_parents_selection_rule_spec Nat Nat Nat Nat Int Int Nat Int Unit Unit).1
      wArchMix wOpt wStateFilter [10, 20] [0, 0] [0, 0] none rfl,
    ((@num_parents_selection_rule_spec Nat Nat Nat Nat Int Int Nat Int Unit Unit).2.1
      wDefaultRng wIntegers wMkOpt 0 1 "basic" "truncation" (some 5) 0
      wInitMuPair rfl).1,
    ((@num_parents_selection_rule_spec Nat Nat Nat Nat Int Int Nat Int Unit Unit).2.2
      wArchNone wOpt wStateMu [1, 2] [0, 0] [0, 0] none 2 rfl rfl).1⟩

/-- C3: under "no_improvement", a tell() call with zero NEW or
IMPROVE_EXISTING solutions fires exactly one restart: `Optimizer.reset`
receives a solution drawn from `Archive.get_random_elite` and the restart
counter increases by exactly 1; under "basic" the emitter-side policy never
fires so a restart occurs exactly when `Optimizer.check_stop` returns true;
at most one restart occurs per call, and the counter is unchanged when
neither trigger fires. -/
theorem tell_restart_policy_spec {σ τ γ Sol Obj Beh Meta Sig ρ ε : Type}
    (A : Archive σ Sol Obj Beh Meta ρ ε) (O : Optimizer τ Sol)
    (e : EmitterState σ τ γ Sol Sig) (solutions : List Sol) (objs : List Obj)
    (behs : List Beh) (md : Option (List (Option Meta))) :
    (e.restart_rule = RestartRule.no_improvement →
      (tell A O e solutions objs behs md).2.newSols = 0 →
        (tell A O e solutions objs behs md).2.restartFired = true ∧
        (tell A O e solutions objs behs md).1.restarts = e.restarts + 1 ∧
        (tell A O e solutions objs behs md).2.resetArg =
          some ((A.get_random_elite
            (tell A O e solutions objs behs md).2.archAfterAdd).1.1) ∧
        (tell A O e solutions objs behs md).1.optState =
          O.reset (tell A O e solutions objs behs md).2.optAfterTell
            ((A.get_random_elite
              (tell A O e solutions objs behs md).2.archAfterAdd).1.1)) ∧
    (e.restart_rule = RestartRule.basic →
      check_restart e.restart_rule
        (tell A O e solutions objs behs md).2.newSols = false ∧
      (tell A O e solutions objs behs md).2.restartFired =
        (tell A O e solutions objs behs md).2.stop) ∧
    ((tell A O e solutions objs behs md).1.restarts =
      if (tell A O e solutions objs behs md).2.restartFired then e.restarts + 1
      else e.restarts) := by
  refine ⟨?_, ?_, tell_restarts A O e solutions objs behs md⟩
  · intro hr h0
    have hfire : (tell A O e solutions objs behs md).2.restartFired = true := by
      rw [tell_restartFired, hr, h0]
      simp [check_restart]
    refine ⟨hfire, ?_, ?_, ?_⟩
    · rw [tell_restarts, hfire]
      rfl
    · rw [tell_resetArg, hfire]
      rfl
    · rw [tell_optState, hfire]
      rfl
  · intro hr
    have hc : check_restart e.restart_rule
        (tell A O e solutions objs behs md).2.newSols = false := by
      rw [hr]
      rfl
    refine ⟨hc, ?_⟩
    rw [tell_restartFired, hc, Bool.or_false]

/-- Closed witness for `tell_restart_policy_spec`. -/
theorem tell_restart_policy_spec_witness :
    ((tell wArchNone wOpt wStateFilter [10, 20] [0, 0] [0, 0] none).2.restartFired =
        true ∧
      (tell wArchNone wOpt wStateFilter [10, 20] [0, 0] [0, 0] none).1.restarts =
        wStateFilter.restarts + 1) ∧
    check_restart wStateBasic.restart_rule
      (tell wArchNone wOpt wStateBasic [10, 20] [0, 0] [0, 0] none).2.newSols =
      false :=
  ⟨⟨((tell_restart_policy_spec wArchNone wOpt wStateFilter [10, 20] [0, 0] [0, 0]
        none).1 rfl rfl).1,
    ((tell_restart_policy_spec wArchNone wOpt wStateFilter [10, 20] [0, 0] [0, 0]
        none).1 rfl rfl).2.1⟩,
    ((tell_restart_policy_spec wArchNone wOpt wStateBasic [10, 20] [0, 0] [0, 0]
        none).2.1 rfl).1⟩

/-- C4 is false as stated: on a concrete call in which the ranked order
differs from the batch order, the list handed to `Optimizer.check_stop` is
not the insertion values in original batch order (the in-place
`ranking_data.sort(reverse=True)` at line 162 happens before the value list
is built at line 171). -/
theorem check_stop_values_not_batch_order :
    (tell wArchMix wOpt wStateFilter [10, 20] [0, 0] [0, 0] none).2.checkStopValues ≠
      ((tell wArchMix wOpt wStateFilter [10, 20] [0, 0] [0, 0] none).2.records).map
        (fun d => d.2.1) := by
  decide

/-- C4 amended: in every tell() call the sequence passed to
`Optimizer.check_stop` is the sequence of improvement values recorded during
the archive insertions of step 1, but in the ranked order produced by step 2
(hence a permutation of the values in original batch order), not in original
batch order. -/
theorem check_stop_values_ranked_order {σ τ γ Sol Obj Beh Meta Sig ρ ε : Type}
    (A : Archive σ Sol Obj Beh Meta ρ ε) (O : Optimizer τ Sol)
    (e : EmitterState σ τ γ Sol Sig) (solutions : List Sol) (objs : List Obj)
    (behs : List Beh) (md : Option (List (Option Meta))) :
    (tell A O e solutions objs behs md).2.checkStopValues =
      ((tell A O e solutions objs behs md).2.ranked).map (fun d => d.2.1) ∧
    ((tell A O e solutions objs behs md).2.checkStopValues).Perm
      (((tell A O e solutions objs behs md).2.records).map (fun d => d.2.1)) := by
  refine ⟨tell_checkStopValues A O e solutions objs behs md, ?_⟩
  rw [tell_checkStopValues]
  exact (tell_ranked_perm A O e solutions objs behs md).map _

/-- C6: construction fails with a configuration error exactly when
`selection_rule` is outside {mu, filter} or `restart_rule` is outside
{basic, no_improvement} (weight_rule being handed to the opaque optimizer
constructor), and the error message names the offending field and value. -/
theorem init_validation_spec {σ τ γ Sol Sig : Type} (default_rng : Option Nat → γ)
    (integers : γ → Nat → Nat × γ) (mkOpt : String → Option Nat → Optimizer τ Sol × τ)
    (x0 : Sol) (s0 : Sig) (sel rr wr : String) (seed : Option Nat) (a : σ) :
    ((∃ m, init default_rng integers mkOpt x0 s0 sel rr wr seed a =
        Except.error m) ↔
      (¬(sel = "mu" ∨ sel = "filter") ∨
        ¬(rr = "basic" ∨ rr = "no_improvement"))) ∧
    (¬(sel = "mu" ∨ sel = "filter") →
      init default_rng integers mkOpt x0 s0 sel rr wr seed a =
        Except.error ("Invalid selection_rule " ++ sel)) ∧
    ((sel = "mu" ∨ sel = "filter") → ¬(rr = "basic" ∨ rr = "no_improvement") →
      init default_rng integers mkOpt x0 s0 sel rr wr seed a =
        Except.error ("Invalid restart_rule " ++ rr)) := by
  by_cases hsel : sel = "mu" ∨ sel = "filter"
  · by_cases hrr : rr = "basic" ∨ rr = "no_improvement"
    · refine ⟨?_, fun h => absurd hsel h, fun _ h => absurd hrr h⟩
      simp only [init, if_neg (not_not_intro hsel), if_neg (not_not_intro hrr)]
      simp [hsel, hrr]
    · refine ⟨?_, fun h => absurd hsel h, fun _ _ => ?_⟩
      · simp only [init, if_neg (not_not_intro hsel), if_pos hrr]
        simp [hsel, hrr]
      · simp only [init, if_neg (not_not_intro hsel), if_pos hrr]
  · refine ⟨?_, fun _ => ?_, fun h => absurd h hsel⟩
    · simp only [init, if_pos hsel]
      simp [hsel]
    · simp only [init, if_pos hsel]

/-- Closed witness for `init_validation_spec`. -/
theorem init_validation_spec_witness :
    init wDefaultRng wIntegers wMkOpt 0 (1 : Int) "bogus" "basic" "truncation"
        (some 5) 0 =
      Except.error ("Invalid selection_rule " ++ "bogus") ∧
    init wDefaultRng wIntegers wMkOpt 0 (1 : Int) "mu" "bogus" "truncation"
        (some 5) 0 =
      Except.error ("Invalid restart_rule " ++ "bogus") :=
  ⟨(init_validation_spec wDefaultRng wIntegers wMkOpt 0 1 "bogus" "basic"
      "truncation" (some 5) 0).2.1 (by decide),
    (init_validation_spec wDefaultRng wIntegers wMkOpt 0 1 "mu" "bogus"
      "truncation" (some 5) 0).2.2 (Or.inl rfl) (by decide)⟩

/-- C7: tell() raises no error on inputs of differing lengths; it silently
processes only the first min-of-lengths entries.  The whole call (archive
insertions, ranking records, optimizer interaction, restart decision) equals
the call on the inputs truncated to the minimum length, and exactly that many
ranking records (hence archive insertions) are built — both when metadata is
supplied and when it is omitted. -/
theorem tell_truncates_to_min_length {σ τ γ Sol Obj Beh Meta Sig ρ ε : Type}
    (A : Archive σ Sol Obj Beh Meta ρ ε) (O : Optimizer τ Sol)
    (e : EmitterState σ τ γ Sol Sig) (solutions : List Sol) (objs : List Obj)
    (behs : List Beh) (ms : List (Option Meta)) :
    tell A O e solutions objs behs (some ms) =
      tell A O e
        (solutions.take
          (min solutions.length (min objs.length (min behs.length ms.length))))
        (objs.take
          (min solutions.length (min objs.length (min behs.length ms.length))))
        (behs.take
          (min solutions.length (min objs.length (min behs.length ms.length))))
        (some (ms.take
          (min solutions.length (min objs.length (min behs.length ms.length))))) ∧
    (tell A O e solutions objs behs (some ms)).2.records.length =
      min solutions.length (min objs.length (min behs.length ms.length)) ∧
    tell A O e solutions objs behs (none : Option (List (Option Meta))) =
      tell A O e
        (solutions.take (min solutions.length (min objs.length behs.length)))
        (objs.take (min solutions.length (min objs.length behs.length)))
        (behs.take (min solutions.length (min objs.length behs.length)))
        none ∧
    (tell A O e solutions objs behs
        (none : Option (List (Option Meta)))).2.records.length =
      min solutions.length (min objs.length behs.length) := by
  refine ⟨?_, ?_, ?_, ?_⟩
  · refine tell_eq_of_zip4_eq A O e (zip4_take_some solutions objs behs ms).symm ?_
    intro i hi
    rw [zip4_take_some, zip4_length_some] at hi
    simp only [List.get?_eq_getElem?]
    exact (List.getElem?_take_of_lt hi).symm
  · rw [tell_records, addLoop_records_length, zip4_length_some]
  · refine tell_eq_of_zip4_eq A O e (zip4_take_none solutions objs behs).symm ?_
    intro i hi
    rw [zip4_take_none, zip4_length_none] at hi
    simp only [List.get?_eq_getElem?]
    exact (List.getElem?_take_of_lt hi).symm
  · rw [tell_records, addLoop_records_length, zip4_length_none]

/-- C8: an omitted metadata argument behaves as an unbounded sequence of
"no metadata" markers: the call is identical to passing an explicit
length-`batch_size` sequence of such markers, and all `batch_size` solutions
are still inserted. -/
theorem tell_metadata_default_spec {σ τ γ Sol Obj Beh Meta Sig ρ ε : Type}
    (A : Archive σ Sol Obj Beh Meta ρ ε) (O : Optimizer τ Sol)
    (e : EmitterState σ τ γ Sol Sig) (solutions : List Sol) (objs : List Obj)
    (behs : List Beh) (n : Nat) (hs : solutions.length = n) (ho : objs.length = n)
    (hb : behs.length = n) :
    tell A O e solutions objs behs (none : Option (List (Option Meta))) =
      tell A O e solutions objs behs
        (some (List.replicate n (none : Option Meta))) ∧
    (tell A O e solutions objs behs
        (none : Option (List (Option Meta)))).2.records.length = n := by
  constructor
  · refine tell_eq_of_zip4_eq A O e ?_ (fun i _ => rfl)
    rw [← hb]
    exact (zip4_replicate_none solutions objs behs).symm
  · rw [tell_records, addLoop_records_length, zip4_length_none, hs, ho, hb]
    simp

/-- Closed witness for `tell_metadata_default_spec`. -/
theorem tell_metadata_default_spec_witness :
    tell wArchMix wOpt wStateFilter [10, 20] [0, 0] [0, 0]
        (none : Option (List (Option Nat))) =
      tell wArchMix wOpt wStateFilter [10, 20] [0, 0] [0, 0]
        (some (List.replicate 2 (none : Option Nat))) ∧
    (tell wArchMix wOpt wStateFilter [10, 20] [0, 0] [0, 0]
        (none : Option (List (Option Nat)))).2.records.length = 2 :=
  tell_metadata_default_spec wArchMix wOpt wStateFilter [10, 20] [0, 0] [0, 0] 2
    rfl rfl rfl

/-- C9: a tell() call's side effects are confined to the archive state, the
optimizer state, the restart counter and (at most) the emitter's RNG state:
the configuration fields `x0`, `sigma0`, `batch_size`, `selection_rule`,
`restart_rule` and the precomputed `num_parents` are unchanged — and so, in
fact, is the RNG state, which tell() never touches.  Python's tell() returns
`None`; the embedding returns the updated state explicitly. -/
theorem tell_side_effects_frame {σ τ γ Sol Obj Beh Meta Sig ρ ε : Type}
    (A : Archive σ Sol Obj Beh Meta ρ ε) (O : Optimizer τ Sol)
    (e : EmitterState σ τ γ Sol Sig) (solutions : List Sol) (objs : List Obj)
    (behs : List Beh) (md : Option (List (Option Meta))) :
    (tell A O e solutions objs behs md).1.x0 = e.x0 ∧
    (tell A O e solutions objs behs md).1.sigma0 = e.sigma0 ∧
    (tell A O e solutions objs behs md).1.batch_size = e.batch_size ∧
    (tell A O e solutions objs behs md).1.selection_rule = e.selection_rule ∧
    (tell A O e solutions objs behs md).1.restart_rule = e.restart_rule ∧
    (tell A O e solutions objs behs md).1.num_parents = e.num_parents ∧
    (tell A O e solutions objs behs md).1.rng = e.rng :=
  tell_config_frame A O e solutions objs behs md

/-- C10: with inputs of length `batch_size` (and the construction invariant
that "mu" stores `some (batch_size / 2)`), the `num_parents` value forwarded
to `Optimizer.tell` satisfies `0 ≤ num_parents ≤ batch_size` under both
selection rules. -/
theorem num_parents_within_batch {σ τ γ Sol Obj Beh Meta Sig ρ ε : Type}
    (A : Archive σ Sol Obj Beh Meta ρ ε) (O : Optimizer τ Sol)
    (e : EmitterState σ τ γ Sol Sig) (solutions : List Sol) (objs : List Obj)
    (behs : List Beh) (md : Option (List (Option Meta)))
    (hs : solutions.length = e.batch_size) (ho : objs.length = e.batch_size)
    (hb : behs.length = e.batch_size)
    (hm : ∀ ms, md = some ms → ms.length = e.batch_size)
    (hmu : e.selection_rule = SelectionRule.mu →
      e.num_parents = some (e.batch_size / 2)) :
    0 ≤ (tell A O e solutions objs behs md).2.num_parents ∧
    (tell A O e solutions objs behs md).2.num_parents ≤ e.batch_size := by
  refine ⟨Nat.zero_le _, ?_⟩
  have hlen := tell_records_length_of_batch A O e solutions objs behs md hs ho hb hm
  have h1 := tell_num_parents A O e solutions objs behs md
  cases hsel : e.selection_rule with
  | filter =>
    rw [hsel] at h1
    simp only [] at h1
    rw [h1, tell_newSols, addLoop_count, ← tell_records]
    calc ((tell A O e solutions objs behs md).2.records).countP isImproving
        ≤ ((tell A O e solutions objs behs md).2.records).length :=
          List.countP_le_length _
      _ = e.batch_size := hlen
  | mu =>
    rw [hsel] at h1
    simp only [] at h1
    rw [h1, hmu hsel]
    exact Nat.le_trans (Nat.le_of_eq rfl)
      (Nat.le_trans (Nat.div_le_self e.batch_size 2) (Nat.le_refl _))

/-- Closed witness for `num_parents_within_batch`. -/
theorem num_parents_within_batch_witness :
    0 ≤ (tell wArchMix wOpt wStateFilter [10, 20] [0, 0] [0, 0]
        (none : Option (List (Option Nat)))).2.num_parents ∧
    (tell wArchMix wOpt wStateFilter [10, 20] [0, 0] [0, 0]
        (none : Option (List (Option Nat)))).2.num_parents ≤
      wStateFilter.batch_size :=
  num_parents_within_batch wArchMix wOpt wStateFilter [10, 20] [0, 0] [0, 0] none
    rfl rfl rfl (fun _ h => nomatch h) (fun h => absurd h (by decide))

end RibsSpec
